import Mathlib

/-!
Verification of the Sen2Grass raster pipeline's numeric contract.

The pipeline (Python, numpy/gdal) is shallowly embedded here:
  - numpy float arrays become `List FVal`, where `FVal` models an IEEE-style
    value as either not-a-number, a signed infinity, or an exact rational;
    numpy's elementwise comparisons and arithmetic (with `np.seterr` set to
    ignore divide/invalid errors) become total Lean functions on `FVal`;
  - fallible file reads (`glob(...)[0]` raising IndexError when no file
    matches) become `Except`-valued functions;
  - the fixed five band names and four vegetation-index names become
    enumerations.
-/

namespace Sen2Grass

/-- Model of a numpy float value: not-a-number, positive or negative
infinity, or a finite value (modelled as an exact rational; binary rounding
is abstracted away). -/
inductive FVal where
  | nan : FVal
  | inf : FVal
  | ninf : FVal
  | num : ℚ → FVal
deriving DecidableEq

namespace FVal

/-- Strict less-than, numpy semantics: any comparison with NaN is false. -/
def lt : FVal → FVal → Bool
  | nan, _ => false
  | _, nan => false
  | ninf, ninf => false
  | ninf, _ => true
  | _, ninf => false
  | inf, _ => false
  | _, inf => true
  | num a, num b => a < b

/-- Less-or-equal, numpy semantics: any comparison with NaN is false. -/
def le : FVal → FVal → Bool
  | nan, _ => false
  | _, nan => false
  | ninf, _ => true
  | _, ninf => false
  | _, inf => true
  | inf, _ => false
  | num a, num b => a ≤ b

/-- Strict greater-than (numpy `>`). -/
def gt (a b : FVal) : Bool := lt b a

/-- Greater-or-equal (numpy `>=`). -/
def ge (a b : FVal) : Bool := le b a

/-- NaN test (numpy `np.isnan`; false on infinities). -/
def isNan : FVal → Bool
  | nan => true
  | _ => false

/-- Addition with IEEE special values. -/
def add : FVal → FVal → FVal
  | nan, _ => nan
  | _, nan => nan
  | inf, ninf => nan
  | ninf, inf => nan
  | inf, _ => inf
  | _, inf => inf
  | ninf, _ => ninf
  | _, ninf => ninf
  | num a, num b => num (a + b)

/-- Subtraction with IEEE special values. -/
def sub : FVal → FVal → FVal
  | nan, _ => nan
  | _, nan => nan
  | inf, inf => nan
  | ninf, ninf => nan
  | inf, _ => inf
  | ninf, _ => ninf
  | _, inf => ninf
  | _, ninf => inf
  | num a, num b => num (a - b)

/-- Multiplication with IEEE special values (infinity times zero is NaN). -/
def mul : FVal → FVal → FVal
  | nan, _ => nan
  | _, nan => nan
  | inf, inf => inf
  | inf, ninf => ninf
  | ninf, inf => ninf
  | ninf, ninf => inf
  | inf, num b => if 0 < b then inf else if b < 0 then ninf else nan
  | num a, inf => if 0 < a then inf else if a < 0 then ninf else nan
  | ninf, num b => if 0 < b then ninf else if b < 0 then inf else nan
  | num a, ninf => if 0 < a then ninf else if a < 0 then inf else nan
  | num a, num b => num (a * b)

/-- Division with IEEE special values and numpy's ignored-error semantics:
a nonzero finite value divided by zero gives a signed infinity, zero divided
by zero gives NaN, no exception is ever raised (the model has no negative
zero, so the sign of a zero divisor is taken as positive). -/
def div : FVal → FVal → FVal
  | nan, _ => nan
  | _, nan => nan
  | inf, inf => nan
  | inf, ninf => nan
  | ninf, inf => nan
  | ninf, ninf => nan
  | inf, num b => if b < 0 then ninf else inf
  | ninf, num b => if b < 0 then inf else ninf
  | num _, inf => num 0
  | num _, ninf => num 0
  | num a, num b =>
      if b = 0 then (if a = 0 then nan else if 0 < a then inf else ninf)
      else num (a / b)

end FVal

/-! ## Band Reader/Masker (`calc_veg_indices`, raster_calculations.py 42-67)

The scene-classification (SCL) band is turned into a validity mask by two
sequential in-place masked assignments: first, pixels with class code `< 1`
or with code `> 7 and < 10` are set to NaN; second, on the updated array,
pixels with code `>= 10` or with code `>= 1 and <= 7` are set to `1`.
Optical bands are divided by 10000 and multiplied elementwise by the mask. -/

/-- Validity mask of one SCL pixel: the two sequential masked assignments of
raster_calculations.py lines 49-56 applied to a single element. -/
def sclMask (v : FVal) : FVal :=
  let v1 := if (FVal.lt v (FVal.num 1) ||
                (FVal.gt v (FVal.num 7) && FVal.lt v (FVal.num 10)))
            then FVal.nan else v
  if (FVal.ge v1 (FVal.num 10) ||
      (FVal.ge v1 (FVal.num 1) && FVal.le v1 (FVal.num 7)))
  then FVal.num 1 else v1

/-- The whole-band mask: `sclMask` applied elementwise. -/
def sclMaskArr (band : List FVal) : List FVal := band.map sclMask

/-- C1: for every finite scene-classification code `x`, the validity mask is
`1` exactly when `1 ≤ x ≤ 7` or `x ≥ 10`, and NaN exactly when `x < 1` or
`7 < x < 10`; moreover every pixel of any band (finite or not) is mapped to
either `1` or NaN, so no other mask value ever occurs. -/
theorem scl_mask_partition :
    (∀ x : ℚ, sclMask (FVal.num x) =
      (if x < 1 ∨ (7 < x ∧ x < 10) then FVal.nan else FVal.num 1)) ∧
    (∀ v : FVal, sclMask v = FVal.num 1 ∨ sclMask v = FVal.nan) ∧
    (∀ band : List FVal, ∀ m ∈ sclMaskArr band,
      m = FVal.num 1 ∨ m = FVal.nan) := by
  have hnum : ∀ x : ℚ, sclMask (FVal.num x) =
      (if x < 1 ∨ (7 < x ∧ x < 10) then FVal.nan else FVal.num 1) := by
    intro x
    by_cases h1 : x < 1
    · simp [sclMask, FVal.lt, FVal.gt, FVal.ge, FVal.le, h1]
    · by_cases h2 : 7 < x ∧ x < 10
      · simp [sclMask, FVal.lt, FVal.gt, FVal.ge, FVal.le, h1, h2.1, h2.2]
      · have hx1 : (1:ℚ) ≤ x := not_lt.mp h1
        rcases not_and_or.mp h2 with h7 | h10
        · have h7' : x ≤ 7 := not_lt.mp h7
          simp [sclMask, FVal.lt, FVal.gt, FVal.ge, FVal.le,
                h1, h7, hx1, h7']
        · have h10' : (10:ℚ) ≤ x := not_lt.mp h10
          simp [sclMask, FVal.lt, FVal.gt, FVal.ge, FVal.le,
                h1, h10, h10']
  have hall : ∀ v : FVal, sclMask v = FVal.num 1 ∨ sclMask v = FVal.nan := by
    intro v
    cases v with
    | nan => simp [sclMask, FVal.lt, FVal.gt, FVal.ge, FVal.le]
    | inf => simp [sclMask, FVal.lt, FVal.gt, FVal.ge, FVal.le]
    | ninf => simp [sclMask, FVal.lt, FVal.gt, FVal.ge, FVal.le]
    | num x =>
        rw [hnum x]
        by_cases h : x < 1 ∨ (7 < x ∧ x < 10) <;> simp [h]
  refine ⟨hnum, hall, ?_⟩
  intro band m hm
  rcases List.mem_map.mp hm with ⟨v, _, rfl⟩
  exact hall v

/-- C1 witness: the partition evaluated at class codes 4 (vegetation,
valid) and 8 (cloud probability, invalid), and the no-other-value clause
on a concrete one-pixel band. -/
theorem scl_mask_partition_witness :
    sclMask (FVal.num 4) = FVal.num 1 ∧
    sclMask (FVal.num 8) = FVal.nan ∧
    (sclMask (FVal.num 4) = FVal.num 1 ∨
      sclMask (FVal.num 4) = FVal.nan) := by
  refine ⟨?_, ?_, ?_⟩
  · have h := scl_mask_partition.1 4
    norm_num at h
    exact h
  · have h := scl_mask_partition.1 8
    norm_num at h
    exact h
  · exact scl_mask_partition.2.2 [FVal.num 4] (sclMask (FVal.num 4))
      (by simp [sclMaskArr])

/-! ## Index Calculator (`calc_veg_indices`, raster_calculations.py 77-94)

The four vegetation indices are elementwise numpy expressions over the
masked reflectance arrays.  The array-level definitions below mirror the
numpy expression trees; the scalar per-pixel functions are related to them
by the zip lemmas that follow. -/

/-- NDVI at one pixel: `(R865 - R665) / (R865 + R665)`. -/
def ndviVal (r665 r865 : FVal) : FVal :=
  FVal.div (FVal.sub r865 r665) (FVal.add r865 r665)

/-- WDVI at one pixel: `R865 - 1.8 * R665` (1.8 = 9/5 in the model). -/
def wdviVal (r665 r865 : FVal) : FVal :=
  FVal.sub r865 (FVal.mul (FVal.num (9/5)) r665)

/-- NDRE at one pixel: `(R865 - R705) / (R865 + R705)`. -/
def ndreVal (r705 r865 : FVal) : FVal :=
  FVal.div (FVal.sub r865 r705) (FVal.add r865 r705)

/-- CI red edge at one pixel: `R783 / R705 - 1`. -/
def ciRedEdgeVal (r705 r783 : FVal) : FVal :=
  FVal.sub (FVal.div r783 r705) (FVal.num 1)

/-- NDVI over whole arrays, mirroring the numpy expression
`(b865 - b665) / (b865 + b665)`. -/
def ndviArr (r665 r865 : List FVal) : List FVal :=
  List.zipWith FVal.div (List.zipWith FVal.sub r865 r665)
    (List.zipWith FVal.add r865 r665)

/-- WDVI over whole arrays, mirroring `b865 - 1.8 * b665`. -/
def wdviArr (r665 r865 : List FVal) : List FVal :=
  List.zipWith FVal.sub r865
    (List.map (fun v => FVal.mul (FVal.num (9/5)) v) r665)

/-- NDRE over whole arrays, mirroring `(b865 - b705) / (b865 + b705)`. -/
def ndreArr (r705 r865 : List FVal) : List FVal :=
  List.zipWith FVal.div (List.zipWith FVal.sub r865 r705)
    (List.zipWith FVal.add r865 r705)

/-- CI red edge over whole arrays, mirroring `b783 / b705 - 1`. -/
def ciRedEdgeArr (r705 r783 : List FVal) : List FVal :=
  List.map (fun v => FVal.sub v (FVal.num 1))
    (List.zipWith FVal.div r783 r705)

/-- Fusing two zips of the same list pair under a binary operation. -/
theorem zipWith_comp₂ (h f g : FVal → FVal → FVal) :
    ∀ a b : List FVal,
      List.zipWith h (List.zipWith f a b) (List.zipWith g a b) =
        List.zipWith (fun x y => h (f x y) (g x y)) a b
  | [], _ => by simp
  | _ :: _, [] => by simp
  | x :: xs, y :: ys => by
      simp only [List.zipWith]
      rw [zipWith_comp₂ h f g xs ys]

/-- Fusing a map on the right argument into the zip. -/
theorem zipWith_map_fuse (f : FVal → FVal → FVal) (g : FVal → FVal) :
    ∀ a b : List FVal,
      List.zipWith f a (b.map g) =
        List.zipWith (fun x y => f x (g y)) a b
  | [], _ => by simp
  | _ :: _, [] => by simp
  | x :: xs, y :: ys => by
      simp only [List.map, List.zipWith]
      rw [zipWith_map_fuse f g xs ys]

/-- Fusing a map applied after a zip. -/
theorem map_zipWith_fuse (g : FVal → FVal) (f : FVal → FVal → FVal) :
    ∀ a b : List FVal,
      (List.zipWith f a b).map g =
        List.zipWith (fun x y => g (f x y)) a b
  | [], _ => by simp
  | _ :: _, [] => by simp
  | x :: xs, y :: ys => by
      simp only [List.map, List.zipWith]
      rw [map_zipWith_fuse g f xs ys]

/-- Swapping the two list arguments of a zip. -/
theorem zipWith_swap (f : FVal → FVal → FVal) :
    ∀ a b : List FVal,
      List.zipWith f a b = List.zipWith (fun y x => f x y) b a
  | [], b => by cases b <;> simp
  | _ :: _, [] => by simp
  | x :: xs, y :: ys => by
      simp only [List.zipWith]
      rw [zipWith_swap f xs ys]

/-- C2 counterexample: with R665 = [-1] and R865 = [1] the NDVI denominator
is zero but the numerator is 2, and numpy's ignored-error division yields
positive infinity, not not-a-number, so the claim that a zero denominator
always produces not-a-number is false on the code. -/
theorem ndvi_div_zero_not_nan :
    ndviArr [FVal.num (-1)] [FVal.num 1] = [FVal.inf] ∧
      FVal.inf ≠ FVal.nan := by
  refine ⟨?_, by decide⟩
  norm_num [ndviArr, FVal.sub, FVal.add, FVal.div]

/-- C2 (amended): the four index computations are pointwise applications of
NDVI = (R865-R665)/(R865+R665), WDVI = R865-1.8*R665,
NDRE = (R865-R705)/(R865+R705), CI_RedEdge = R783/R705-1; on finite pixels
with nonzero denominator the quotient is the exact rational value; a zero
denominator yields not-a-number when the numerator is zero and a signed
infinity otherwise; the computation is a total function, so no exception is
ever raised. -/
theorem veg_index_semantics :
    (∀ r665 r705 r783 r865 : List FVal,
      ndviArr r665 r865 = List.zipWith ndviVal r665 r865 ∧
      wdviArr r665 r865 = List.zipWith wdviVal r665 r865 ∧
      ndreArr r705 r865 = List.zipWith ndreVal r705 r865 ∧
      ciRedEdgeArr r705 r783 = List.zipWith ciRedEdgeVal r705 r783) ∧
    (∀ a b : ℚ,
      wdviVal (FVal.num a) (FVal.num b) = FVal.num (b - (9/5) * a)) ∧
    (∀ a b : ℚ, b + a ≠ 0 →
      ndviVal (FVal.num a) (FVal.num b) = FVal.num ((b - a) / (b + a)) ∧
      ndreVal (FVal.num a) (FVal.num b) = FVal.num ((b - a) / (b + a))) ∧
    (∀ a b : ℚ, a ≠ 0 →
      ciRedEdgeVal (FVal.num a) (FVal.num b) = FVal.num (b / a - 1)) ∧
    (∀ b : ℚ,
      ndviVal (FVal.num (-b)) (FVal.num b) =
        (if b = 0 then FVal.nan else
          if 0 < b then FVal.inf else FVal.ninf) ∧
      ndreVal (FVal.num (-b)) (FVal.num b) =
        (if b = 0 then FVal.nan else
          if 0 < b then FVal.inf else FVal.ninf) ∧
      ciRedEdgeVal (FVal.num 0) (FVal.num b) =
        (if b = 0 then FVal.nan else
          if 0 < b then FVal.inf else FVal.ninf)) := by
  refine ⟨?_, ?_, ?_, ?_, ?_⟩
  · intro r665 r705 r783 r865
    refine ⟨?_, ?_, ?_, ?_⟩
    · rw [ndviArr, zipWith_comp₂, zipWith_swap]
      rfl
    · rw [wdviArr, zipWith_map_fuse, zipWith_swap]
      rfl
    · rw [ndreArr, zipWith_comp₂, zipWith_swap]
      rfl
    · rw [ciRedEdgeArr, map_zipWith_fuse, zipWith_swap]
      rfl
  · intro a b
    simp [wdviVal, FVal.sub, FVal.mul]
  · intro a b hab
    constructor <;>
      simp [ndviVal, ndreVal, FVal.sub, FVal.add, FVal.div, hab]
  · intro a b ha
    simp [ciRedEdgeVal, FVal.sub, FVal.div, ha]
  · intro b
    have hsum : b + -b = 0 := by ring
    have hsub : b - -b = 2 * b := by ring
    by_cases hb : b = 0
    · subst hb
      refine ⟨?_, ?_, ?_⟩ <;>
        norm_num [ndviVal, ndreVal, ciRedEdgeVal, FVal.sub, FVal.add,
                  FVal.div]
    · by_cases hpos : 0 < b
      · have h2 : 0 < 2 * b := by linarith
        refine ⟨?_, ?_, ?_⟩ <;>
          simp [ndviVal, ndreVal, ciRedEdgeVal, FVal.sub, FVal.add,
                FVal.div, hsum, hsub, hb, hpos, h2]
      · have hneg : b < 0 := lt_of_le_of_ne (not_lt.mp hpos) hb
        have h2 : ¬ (0 < 2 * b) := by linarith
        refine ⟨?_, ?_, ?_⟩ <;>
          simp [ndviVal, ndreVal, ciRedEdgeVal, FVal.sub, FVal.add,
                FVal.div, hsum, hsub, hb, hpos, h2, not_lt.mp hpos,
                hneg]

/-- C2 witness: the amended pointwise and zero-denominator semantics
evaluated at concrete pixels. -/
theorem veg_index_semantics_witness :
    ndviVal (FVal.num (1/5)) (FVal.num (2/5)) = FVal.num (1/3) ∧
    ciRedEdgeVal (FVal.num (1/2)) (FVal.num 1) = FVal.num 1 ∧
    ndviVal (FVal.num 0) (FVal.num 0) = FVal.nan := by
  refine ⟨?_, ?_, ?_⟩
  · have h := (veg_index_semantics.2.2.1 (1/5) (2/5) (by norm_num)).1
    rw [h]
    norm_num
  · have h := veg_index_semantics.2.2.2.1 (1/2) 1 (by norm_num)
    rw [h]
    norm_num
  · have h := (veg_index_semantics.2.2.2.2 0).1
    simpa using h

/-- C6: on finite reflectance pixels in [0,1], NDVI and NDRE are finite and
lie in [-1,1] whenever the denominator is nonzero, and are not-a-number
(with no exception raised) when the denominator is zero. -/
theorem ndvi_ndre_bounds :
    ∀ a b : ℚ, 0 ≤ a → a ≤ 1 → 0 ≤ b → b ≤ 1 →
      ((b + a ≠ 0 → ∃ q : ℚ,
          ndviVal (FVal.num a) (FVal.num b) = FVal.num q ∧
          ndreVal (FVal.num a) (FVal.num b) = FVal.num q ∧
          -1 ≤ q ∧ q ≤ 1) ∧
       (b + a = 0 →
          ndviVal (FVal.num a) (FVal.num b) = FVal.nan ∧
          ndreVal (FVal.num a) (FVal.num b) = FVal.nan)) := by
  intro a b ha0 _ hb0 _
  constructor
  · intro hab
    have hpos : 0 < b + a := lt_of_le_of_ne (by linarith) (Ne.symm hab)
    refine ⟨(b - a) / (b + a), ?_, ?_, ?_, ?_⟩
    · simp [ndviVal, FVal.sub, FVal.add, FVal.div, hab]
    · simp [ndreVal, FVal.sub, FVal.add, FVal.div, hab]
    · rw [le_div_iff₀ hpos]
      linarith
    · rw [div_le_one hpos]
      linarith
  · intro hab
    have ha : a = 0 := by linarith
    have hb : b = 0 := by linarith
    subst ha
    subst hb
    constructor <;>
      norm_num [ndviVal, ndreVal, FVal.sub, FVal.add, FVal.div]

/-- C6 witness: the bounds theorem evaluated at the reflectances 0.2 and
0.4, and at the all-zero pixel. -/
theorem ndvi_ndre_bounds_witness :
    (∃ q : ℚ,
      ndviVal (FVal.num (1/5)) (FVal.num (2/5)) = FVal.num q ∧
      ndreVal (FVal.num (1/5)) (FVal.num (2/5)) = FVal.num q ∧
      -1 ≤ q ∧ q ≤ 1) ∧
    ndviVal (FVal.num 0) (FVal.num 0) = FVal.nan := by
  constructor
  · exact (ndvi_ndre_bounds (1/5) (2/5) (by norm_num) (by norm_num)
      (by norm_num) (by norm_num)).1 (by norm_num)
  · exact ((ndvi_ndre_bounds 0 0 le_rfl (by norm_num) le_rfl
      (by norm_num)).2 (by norm_num)).1

/-! ## Raster Writer clamp (`calc_veg_indices`, raster_calculations.py 106-108)

Two sequential in-place masked assignments: first, elements `< -10` or
`> 10` are set to `-9999`; second, on the updated array, NaN elements are
set to `-9999`. -/

/-- The outlier/no-data clamp of one element: the two sequential masked
assignments of raster_calculations.py lines 106-108. -/
def clampOutliers (v : FVal) : FVal :=
  let v1 := if (FVal.lt v (FVal.num (-10)) || FVal.gt v (FVal.num 10))
            then FVal.num (-9999) else v
  if v1.isNan then FVal.num (-9999) else v1

/-- The clamp applied to a whole index array. -/
def clampArr (arr : List FVal) : List FVal := arr.map clampOutliers

/-- Restatement of the clamp from the claim's words, for comparison with
`clampOutliers`: one simultaneous replacement of every element that is
below -10, above 10 or NaN by -9999, all others kept. -/
def clampSpec (v : FVal) : FVal :=
  if (FVal.lt v (FVal.num (-10)) || FVal.gt v (FVal.num 10) || v.isNan)
  then FVal.num (-9999) else v

/-- C3: the writer's clamp agrees elementwise with the claimed replacement
rule (elements strictly below -10, strictly above 10 — which covers the
infinities — or NaN become exactly -9999; all others are unchanged), and
it is idempotent on whole arrays. -/
theorem clamp_partition_idempotent :
    (∀ v : FVal, clampOutliers v = clampSpec v) ∧
    (∀ arr : List FVal, clampArr arr = arr.map clampSpec) ∧
    (∀ arr : List FVal, clampArr (clampArr arr) = clampArr arr) := by
  have hpt : ∀ v : FVal, clampOutliers v = clampSpec v := by
    intro v
    cases v with
    | nan => simp [clampOutliers, clampSpec, FVal.lt, FVal.gt, FVal.isNan]
    | inf => simp [clampOutliers, clampSpec, FVal.lt, FVal.gt, FVal.isNan]
    | ninf => simp [clampOutliers, clampSpec, FVal.lt, FVal.gt, FVal.isNan]
    | num x =>
        by_cases hlo : x < -10
        · simp [clampOutliers, clampSpec, FVal.lt, FVal.gt, FVal.isNan, hlo]
        · by_cases hhi : 10 < x
          · simp [clampOutliers, clampSpec, FVal.lt, FVal.gt, FVal.isNan,
                  hlo, hhi]
          · simp [clampOutliers, clampSpec, FVal.lt, FVal.gt, FVal.isNan,
                  hlo, hhi]
  have hfix : ∀ v : FVal, clampOutliers (clampOutliers v) = clampOutliers v := by
    intro v
    rw [hpt v, hpt (clampSpec v)]
    by_cases hbad : (FVal.lt v (FVal.num (-10)) || FVal.gt v (FVal.num 10) ||
        FVal.isNan v) = true
    · have h1 : clampSpec v = FVal.num (-9999) := by
        rw [clampSpec, if_pos hbad]
      rw [h1]
      norm_num [clampSpec, FVal.lt, FVal.gt, FVal.isNan]
    · have h1 : clampSpec v = v := by
        rw [clampSpec, if_neg hbad]
      rw [h1]
      exact h1
  have harr : ∀ arr : List FVal, clampArr arr = arr.map clampSpec := by
    intro arr
    unfold clampArr
    exact List.map_congr_left (fun v _ => hpt v)
  refine ⟨hpt, harr, ?_⟩
  intro arr
  unfold clampArr
  rw [List.map_map]
  exact List.map_congr_left (fun v _ => hfix v)

/-! ## Parcel Aggregator (parcel_calculations.py)

`calc_zonal_stats` computes per-parcel zonal statistics for each of the
four indices; on the first loop iteration only (`i == 0`) it derives the
cloud-cover percentage column as `nan / (count + nan) * 100` from the first
index's statistics.  `upload_parcels_df` drops every row whose
`cloud_cover_perc` is `>=` the threshold and persists the remainder only
when it is non-empty. -/

/-- Zonal statistics of one parcel for one index, as returned by
`rasterstats.zonal_stats` with stats mean/std/count/nan. -/
structure ZStat where
  mean : FVal
  std : FVal
  count : ℕ
  nanCount : ℕ
deriving DecidableEq

/-- Cloud-cover percentage of one parcel: the pandas expression
`stats_df["nan"] / (stats_df["count"] + stats_df["nan"]) * 100`
(parcel_calculations.py lines 87-88). -/
def cloudCoverPerc (s : ZStat) : FVal :=
  FVal.mul
    (FVal.div (FVal.num (s.nanCount : ℚ))
      (FVal.num ((s.count + s.nanCount : ℕ) : ℚ)))
    (FVal.num 100)

/-- The table shape produced by `calc_zonal_stats`: one cloud-cover column
plus per-index mean/std columns. -/
structure ParcelStatsTable where
  cloudCover : List FVal
  meanStd : List (List (FVal × FVal))
deriving DecidableEq

/-- Model of `calc_zonal_stats`: the cloud-cover column is computed on the
first loop iteration only, from the first index's statistics; every index
contributes its mean/std columns. -/
def calcZonalStats (statsPerIndex : List (List ZStat)) : ParcelStatsTable :=
  { cloudCover := (statsPerIndex.headD []).map cloudCoverPerc
    meanStd := statsPerIndex.map (fun l => l.map (fun s => (s.mean, s.std))) }

/-- C5 counterexample: a parcel with zero valid pixels and zero no-data
pixels (a polygon covering no pixel centre) gets cloud-cover 0/0*100, which
is not-a-number — neither 0 (as the claim requires for no-data count 0) nor
100 (as it requires for valid count 0). -/
theorem cloud_cover_empty_polygon_nan :
    cloudCoverPerc ⟨FVal.nan, FVal.nan, 0, 0⟩ = FVal.nan ∧
    FVal.nan ≠ FVal.num 0 ∧ FVal.nan ≠ FVal.num 100 := by
  refine ⟨?_, by decide, by decide⟩
  norm_num [cloudCoverPerc, FVal.div, FVal.mul]

/-- C5 (amended): the cloud-cover percentage equals
100 * no-data / (valid + no-data) whenever the two counts are not both
zero; it is 0 when the no-data count is 0 and the valid count is positive,
100 when the valid count is 0 and the no-data count is positive, and
not-a-number when both counts are 0; and the cloud-cover column of the
zonal-statistics table is computed exactly once, from the first index's
statistics alone. -/
theorem cloud_cover_perc_semantics :
    (∀ s : ZStat, s.count + s.nanCount ≠ 0 →
      cloudCoverPerc s =
        FVal.num (100 * (s.nanCount : ℚ) /
          ((s.count : ℚ) + (s.nanCount : ℚ)))) ∧
    (∀ s : ZStat, s.nanCount = 0 → s.count ≠ 0 →
      cloudCoverPerc s = FVal.num 0) ∧
    (∀ s : ZStat, s.count = 0 → s.nanCount ≠ 0 →
      cloudCoverPerc s = FVal.num 100) ∧
    (∀ s : ZStat, s.count = 0 → s.nanCount = 0 →
      cloudCoverPerc s = FVal.nan) ∧
    (∀ (first : List ZStat) (rest rest' : List (List ZStat)),
      (calcZonalStats (first :: rest)).cloudCover =
        (calcZonalStats (first :: rest')).cloudCover ∧
      (calcZonalStats (first :: rest)).cloudCover =
        first.map cloudCoverPerc) := by
  have hmain : ∀ s : ZStat, s.count + s.nanCount ≠ 0 →
      cloudCoverPerc s =
        FVal.num (100 * (s.nanCount : ℚ) /
          ((s.count : ℚ) + (s.nanCount : ℚ))) := by
    intro s hs
    have hden : ((s.count + s.nanCount : ℕ) : ℚ) ≠ 0 := by
      exact_mod_cast hs
    have hcast : ((s.count + s.nanCount : ℕ) : ℚ) =
        (s.count : ℚ) + (s.nanCount : ℚ) := by push_cast; ring
    rw [cloudCoverPerc, FVal.div, if_neg hden, FVal.mul, hcast]
    congr 1
    ring
  refine ⟨hmain, ?_, ?_, ?_, ?_⟩
  · intro s hn hc
    rw [hmain s (by omega), hn]
    norm_num
  · intro s hc hn
    rw [hmain s (by omega), hc]
    have hnq : (s.nanCount : ℚ) ≠ 0 := by exact_mod_cast hn
    norm_num [div_self hnq, mul_div_assoc, div_self hnq]
  · intro s hc hn
    rw [cloudCoverPerc, hc, hn]
    norm_num [FVal.div, FVal.mul]
  · intro first rest rest'
    exact ⟨rfl, rfl⟩

/-- C5 witness: the amended semantics evaluated at the concrete counts
(valid, no-data) = (3, 1), (5, 0) and (0, 2). -/
theorem cloud_cover_perc_semantics_witness :
    cloudCoverPerc ⟨FVal.nan, FVal.nan, 3, 1⟩ = FVal.num 25 ∧
    cloudCoverPerc ⟨FVal.nan, FVal.nan, 5, 0⟩ = FVal.num 0 ∧
    cloudCoverPerc ⟨FVal.nan, FVal.nan, 0, 2⟩ = FVal.num 100 := by
  refine ⟨?_, ?_, ?_⟩
  · have h := cloud_cover_perc_semantics.1 ⟨FVal.nan, FVal.nan, 3, 1⟩
      (by norm_num)
    rw [h]
    norm_num
  · exact cloud_cover_perc_semantics.2.1 ⟨FVal.nan, FVal.nan, 5, 0⟩ rfl
      (by norm_num)
  · exact cloud_cover_perc_semantics.2.2.1 ⟨FVal.nan, FVal.nan, 0, 2⟩ rfl
      (by norm_num)

/-- One row of the parcels table assembled by `upload_parcels_df`: parcel
identity plus its cloud-cover percentage (the only columns the filter
reads). -/
structure ParcelRow where
  id : ℕ
  cloudPerc : FVal
deriving DecidableEq

/-- Model of `upload_parcels_df` (parcel_calculations.py lines 135-142):
drop every row whose cloud-cover percentage is `>=` the threshold (pandas
`>=`, false on NaN), then persist the table only if it is non-empty.
Returns the filtered table and whether a persist happened. -/
def uploadParcelsDf (rows : List ParcelRow) (cloudCoverThreshold : ℚ) :
    List ParcelRow × Bool :=
  let kept := rows.filter
    (fun r => ! FVal.ge r.cloudPerc (FVal.num cloudCoverThreshold))
  (kept, ! kept.isEmpty)

/-- Strict-below implies not greater-or-equal against a finite threshold. -/
theorem lt_num_ge_false (v : FVal) (t : ℚ)
    (h : FVal.lt v (FVal.num t) = true) :
    FVal.ge v (FVal.num t) = false := by
  cases v with
  | nan => simp [FVal.lt] at h
  | inf => simp [FVal.lt] at h
  | ninf => simp [FVal.ge, FVal.le]
  | num a =>
      simp [FVal.lt] at h
      simp [FVal.ge, FVal.le, not_le.mpr h]

/-- C4: a row whose cloud-cover percentage is `>=` the threshold never
appears in the filtered table; a row of the input whose percentage is
strictly below the threshold always appears; and when the filtered table is
empty nothing is persisted. -/
theorem upload_parcels_cloud_filter :
    ∀ (rows : List ParcelRow) (thr : ℚ) (r : ParcelRow),
      (FVal.ge r.cloudPerc (FVal.num thr) = true →
        r ∉ (uploadParcelsDf rows thr).1) ∧
      (r ∈ rows → FVal.lt r.cloudPerc (FVal.num thr) = true →
        r ∈ (uploadParcelsDf rows thr).1) ∧
      ((uploadParcelsDf rows thr).1 = [] →
        (uploadParcelsDf rows thr).2 = false) := by
  intro rows thr r
  refine ⟨?_, ?_, ?_⟩
  · intro hge hmem
    have := (List.mem_filter.mp hmem).2
    rw [hge] at this
    simp at this
  · intro hmem hlt
    exact List.mem_filter.mpr
      ⟨hmem, by rw [lt_num_ge_false r.cloudPerc thr hlt]; rfl⟩
  · intro hempty
    show (! List.isEmpty _) = false
    rw [show (uploadParcelsDf rows thr).1 = rows.filter
      (fun r => ! FVal.ge r.cloudPerc (FVal.num thr)) from rfl] at hempty
    simp [uploadParcelsDf, hempty]

/-- C4 witness: with threshold 90, a row at 95 percent is dropped, a row at
10 percent is kept, and a table whose only row is dropped persists
nothing. -/
theorem upload_parcels_cloud_filter_witness :
    (⟨1, FVal.num 95⟩ : ParcelRow) ∉
      (uploadParcelsDf [⟨1, FVal.num 95⟩, ⟨2, FVal.num 10⟩] 90).1 ∧
    (⟨2, FVal.num 10⟩ : ParcelRow) ∈
      (uploadParcelsDf [⟨1, FVal.num 95⟩, ⟨2, FVal.num 10⟩] 90).1 ∧
    (uploadParcelsDf [⟨1, FVal.num 95⟩] 90).2 = false := by
  refine ⟨?_, ?_, ?_⟩
  · exact (upload_parcels_cloud_filter
      [⟨1, FVal.num 95⟩, ⟨2, FVal.num 10⟩] 90 ⟨1, FVal.num 95⟩).1
      (by norm_num [FVal.ge, FVal.le])
  · exact ((upload_parcels_cloud_filter
      [⟨1, FVal.num 95⟩, ⟨2, FVal.num 10⟩] 90 ⟨2, FVal.num 10⟩).2.1
      (by simp) (by norm_num [FVal.lt]))
  · exact (upload_parcels_cloud_filter [⟨1, FVal.num 95⟩] 90
      ⟨1, FVal.num 95⟩).2.2
      (by norm_num [uploadParcelsDf, List.filter, FVal.ge, FVal.le])

/-! ## Pipeline control flow (main.py, raster_calculations.py)

`calc_veg_indices` locates each band file with `glob2.glob(...)[0]`, which
raises IndexError when no file matches.  `run_task` (main.py) contains no
try/except: the only skip path is the `time_stamp_init == None` branch
(no Sentinel-2 catalog entry).  After the tile loop, the mosaic guard reads
`veg_indices[i]` where `i` is the DATE loop counter (main.py 180-185), and
when it passes, `mosaic_veg_indices` loops over all four indices
unconditionally (raster_calculations.py 153-173). -/

/-- The five fixed band names. -/
inductive Band where
  | scl : Band
  | b665 : Band
  | b705 : Band
  | b783 : Band
  | b865 : Band
deriving DecidableEq

/-- The four fixed vegetation-index names. -/
inductive VegIndex where
  | ndvi : VegIndex
  | wdvi : VegIndex
  | ndre : VegIndex
  | ciRedEdge : VegIndex
deriving DecidableEq

/-- The `veg_indices` list of main.py line 82, in source order. -/
def vegIndices : List VegIndex :=
  [VegIndex.ndvi, VegIndex.wdvi, VegIndex.ndre, VegIndex.ciRedEdge]

/-- Errors the shallow embedding can surface: the IndexError raised by
`glob2.glob(...)[0]` on an empty glob result. -/
inductive PipeError where
  | indexError : PipeError
deriving DecidableEq

/-- Reading one band file: `glob2.glob(...)[0]` followed by
`ReadAsArray`.  The scratch directory is a partial map from band name to
pixel array; a missing file is the empty glob, i.e. IndexError. -/
def readBand (fs : Band → Option (List FVal)) (b : Band) :
    Except PipeError (List FVal) :=
  match fs b with
  | some arr => Except.ok arr
  | none => Except.error PipeError.indexError

/-- Model of `calc_veg_indices` up to the computed index arrays: read the
five bands in source order (any missing file raises), build the validity
mask from the SCL band, scale the optical bands by 1/10000 and mask them,
then compute the four index arrays. -/
def calcVegIndicesIO (fs : Band → Option (List FVal)) :
    Except PipeError (List (List FVal)) :=
  match readBand fs Band.scl with
  | Except.error e => Except.error e
  | Except.ok scl =>
    match readBand fs Band.b665 with
    | Except.error e => Except.error e
    | Except.ok raw665 =>
      match readBand fs Band.b705 with
      | Except.error e => Except.error e
      | Except.ok raw705 =>
        match readBand fs Band.b783 with
        | Except.error e => Except.error e
        | Except.ok raw783 =>
          match readBand fs Band.b865 with
          | Except.error e => Except.error e
          | Except.ok raw865 =>
            let mask := sclMaskArr scl
            let scale := fun arr : List FVal =>
              List.zipWith FVal.mul
                (arr.map (fun v => FVal.div v (FVal.num 10000))) mask
            let r665 := scale raw665
            let r705 := scale raw705
            let r783 := scale raw783
            let r865 := scale raw865
            Except.ok [ndviArr r665 r865, wdviArr r665 r865,
                       ndreArr r705 r865, ciRedEdgeArr r705 r783]

/-- Outcome of one tile iteration of `run_task`. -/
inductive TileOutcome where
  | skippedNoData : TileOutcome
  | processed : List (List FVal) → TileOutcome
deriving DecidableEq

/-- One tile iteration of `run_task` (main.py 131-176): when the catalog
query returned no timestamp the tile is logged and skipped; otherwise
`calc_veg_indices` is called with no exception handler, so any error it
raises propagates. -/
def processTile (catalogHasData : Bool)
    (fs : Band → Option (List FVal)) : Except PipeError TileOutcome :=
  if catalogHasData then
    match calcVegIndicesIO fs with
    | Except.error e => Except.error e
    | Except.ok out => Except.ok (TileOutcome.processed out)
  else
    Except.ok TileOutcome.skippedNoData

/-- A scratch directory in which every band file except the 865nm one is
present. -/
def fsMissing865 : Band → Option (List FVal) :=
  fun b =>
    match b with
    | Band.b865 => none
    | _ => some [FVal.num 0]

/-- C7 counterexample: with the 865nm band file absent and catalog data
present, the tile iteration evaluates to an uncaught IndexError — it does
not evaluate to the skipped-tile outcome the claim promises (`run_task`
has no exception handler, so the run aborts instead of skipping). -/
theorem missing_band_not_skipped :
    processTile true fsMissing865 = Except.error PipeError.indexError ∧
    processTile true fsMissing865 ≠ Except.ok TileOutcome.skippedNoData := by
  refine ⟨rfl, ?_⟩
  intro h
  exact Except.noConfusion h

/-- C7 (amended): if any of the five expected band files is absent,
`calc_veg_indices` fails with the IndexError from `glob2.glob(...)[0]`,
and the tile iteration of `run_task` propagates that error unhandled (the
run aborts); only the no-catalog-data branch skips the tile. -/
theorem missing_band_error_propagates :
    ∀ (fs : Band → Option (List FVal)) (b : Band), fs b = none →
      calcVegIndicesIO fs = Except.error PipeError.indexError ∧
      processTile true fs = Except.error PipeError.indexError ∧
      processTile false fs = Except.ok TileOutcome.skippedNoData := by
  intro fs b hb
  have hcalc : calcVegIndicesIO fs = Except.error PipeError.indexError := by
    unfold calcVegIndicesIO readBand
    cases b <;>
      rcases h0 : fs Band.scl with _ | a0 <;>
      rcases h1 : fs Band.b665 with _ | a1 <;>
      rcases h2 : fs Band.b705 with _ | a2 <;>
      rcases h3 : fs Band.b783 with _ | a3 <;>
      rcases h4 : fs Band.b865 with _ | a4 <;>
      simp_all
  refine ⟨hcalc, ?_, rfl⟩
  rw [processTile, if_pos rfl, hcalc]

/-- C7 witness: the amended propagation behaviour evaluated on the scratch
directory missing only the 865nm band. -/
theorem missing_band_error_propagates_witness :
    calcVegIndicesIO fsMissing865 = Except.error PipeError.indexError ∧
    processTile true fsMissing865 = Except.error PipeError.indexError ∧
    processTile false fsMissing865 = Except.ok TileOutcome.skippedNoData :=
  missing_band_error_propagates fsMissing865 Band.b865 rfl

/-- Model of the mosaic phase decision at the end of a date iteration
(main.py 180-193 plus `mosaic_veg_indices`): the guard globs the per-tile
files of `veg_indices[i]` where `i` is the DATE loop counter — an
out-of-range access when the date range has more than four dates — and
when the guard passes, `mosaic_veg_indices` iterates over all four indices
unconditionally.  The result is the list of indices for which a
BuildVRT/Translate invocation happens. -/
def mosaicPhase (dateIdx : ℕ) (tileFileCount : VegIndex → ℕ) :
    Except PipeError (List VegIndex) :=
  match vegIndices.get? dateIdx with
  | none => Except.error PipeError.indexError
  | some vi =>
      if tileFileCount vi ≠ 0 then Except.ok vegIndices
      else Except.ok []

/-- The per-date tile-file census in which only NDVI files exist. -/
def filesNdviOnly : VegIndex → ℕ :=
  fun v =>
    match v with
    | VegIndex.ndvi => 1
    | _ => 0

/-- C8: the code evaluated at the failing input — on the first date
(`i = 0` the guard inspects NDVI only) with one NDVI file and zero WDVI
files, the mosaic step is NOT skipped for WDVI: `mosaic_veg_indices` is
invoked for all four indices, WDVI included, contradicting the claim that
a date/index pair with no per-tile files has its mosaic step skipped. -/
theorem mosaic_runs_for_index_without_files :
    mosaicPhase 0 filesNdviOnly =
      Except.ok [VegIndex.ndvi, VegIndex.wdvi, VegIndex.ndre,
                 VegIndex.ciRedEdge] ∧
    filesNdviOnly VegIndex.wdvi = 0 := by
  exact ⟨rfl, rfl⟩

/-- C9: the mosaic guard reads `veg_indices[i]` with `i` the date-loop
counter: on the fifth and any later date position the lookup is
out-of-range and the iteration fails with an IndexError; on the first four
date positions the decision depends only on the per-tile files of that one
date-position-determined index, never on the other three. -/
theorem mosaic_guard_uses_date_counter :
    (∀ dateIdx : ℕ, 4 ≤ dateIdx → ∀ tileFileCount : VegIndex → ℕ,
      mosaicPhase dateIdx tileFileCount =
        Except.error PipeError.indexError) ∧
    (∀ (dateIdx : ℕ) (vi : VegIndex) (f g : VegIndex → ℕ),
      vegIndices.get? dateIdx = some vi → f vi = g vi →
      mosaicPhase dateIdx f = mosaicPhase dateIdx g) := by
  constructor
  · intro dateIdx h4 tileFileCount
    have hnone : vegIndices.get? dateIdx = none := by
      rw [List.get?_eq_none]
      simpa [vegIndices] using h4
    rw [mosaicPhase, hnone]
  · intro dateIdx vi f g hget hfg
    rw [mosaicPhase, mosaicPhase, hget]
    simp only [hfg]

/-- C9 witness: the fifth date iteration (`i = 4`) fails with IndexError,
and on the first date the guard's outcome is unchanged when the
WDVI/NDRE/CI file counts change from 0 to 7 with the NDVI count fixed. -/
theorem mosaic_guard_uses_date_counter_witness :
    mosaicPhase 4 (fun _ => 3) = Except.error PipeError.indexError ∧
    mosaicPhase 0 filesNdviOnly =
      mosaicPhase 0 (fun v =>
        match v with
        | VegIndex.ndvi => 1
        | _ => 7) := by
  constructor
  · exact mosaic_guard_uses_date_counter.1 4 (by norm_num) (fun _ => 3)
  · exact mosaic_guard_uses_date_counter.2 0 VegIndex.ndvi filesNdviOnly
      (fun v =>
        match v with
        | VegIndex.ndvi => 1
        | _ => 7) rfl rfl

/-- Model of `select_parcels` (parcel_calculations.py 36-49): the selection
is written to parcels.geojson and `parcels_present` is True only when the
selection is non-empty AND no parcels.geojson is already on disk; in every
other case nothing is written and `parcels_present` is False.  Returns
(file written, parcels_present). -/
def selectParcels (parcelGdfEmpty : Bool) (parcelsFileExists : Bool) :
    Bool × Bool :=
  if (! parcelGdfEmpty && ! parcelsFileExists) then (true, true)
  else (false, false)

/-- The caller's guard (main.py 216-265): the zonal-statistics and
aggregation steps run exactly when `parcels_present` is True. -/
def zonalStepsRun (parcelsPresent : Bool) : Bool := parcelsPresent

/-- C10: whenever parcels.geojson already exists — even for a non-empty
selection — `select_parcels` writes nothing and returns
`parcels_present = False`, and the caller therefore skips the
zonal-statistics and aggregation steps; an empty selection likewise yields
`parcels_present = False`. -/
theorem select_parcels_existing_file :
    ∀ e : Bool,
      selectParcels e true = (false, false) ∧
      selectParcels true e = (false, false) ∧
      zonalStepsRun (selectParcels e true).2 = false := by
  intro e
  cases e <;> exact ⟨rfl, rfl, rfl⟩

end Sen2Grass
